import Mathlib

/-!
Verification of the Quality Metrics Engine (`src/services/metrics.ts`).

The engine is five pure scoring functions over strings plus an aggregator.
We shallowly embed the TypeScript source: JavaScript strings become Lean
`String`, JS numbers become `ℚ` (all arithmetic in the source is exact
decimal/rational on the reachable paths), `Math.round` becomes
`⌊x + 1/2⌋`, and each regular-expression use is translated to an explicit
structural string function with the same semantics on the inputs the
engine receives (ASCII case conversion; `\s` as ASCII whitespace).
-/

namespace Metrics

/-- ASCII whitespace, the fragment of the JS `\s` class relevant here
(space, tab, newline, carriage return, vertical tab, form feed). -/
def jsWs (c : Char) : Bool :=
  c = ' ' || c = '\t' || c = '\n' || c = '\r' || c = '\x0b' || c = '\x0c'

/-- Sentence terminator characters, the JS class `[.!?]`. -/
def isTerm (c : Char) : Bool :=
  c = '.' || c = '!' || c = '?'

/-- JS `Math.min` on two rationals (kernel-computable). -/
def qmin (a b : ℚ) : ℚ := if a ≤ b then a else b

/-- JS `Math.max` on two rationals (kernel-computable). -/
def qmax (a b : ℚ) : ℚ := if a ≤ b then b else a

/-- JS `Math.min` on naturals (kernel-computable). -/
def nmin (a b : ℕ) : ℕ := if a ≤ b then a else b

/-- JS `Math.max` on naturals (kernel-computable). -/
def nmax (a b : ℕ) : ℕ := if a ≤ b then b else a

/-- JS `Math.max` on integers (kernel-computable). -/
def imax (a b : ℤ) : ℤ := if a ≤ b then b else a

/-- `String.prototype.split` against a one-or-more character-class regex
(`/[.!?]+/`, `/\s+/`): segments between maximal runs of matching
characters, keeping leading/trailing empty segments as JS does.
The Bool flag records whether the previous character was part of a run. -/
def splitRunsAux (p : Char → Bool) : List Char → Bool → List Char → List (List Char)
  | [], _, acc => [acc.reverse]
  | c :: rest, inSep, acc =>
    if p c then
      if inSep then splitRunsAux p rest true acc
      else acc.reverse :: splitRunsAux p rest true []
    else splitRunsAux p rest false (c :: acc)

/-- JS `text.split(/[c]+/)` for a character class `p`. -/
def jsSplitRuns (p : Char → Bool) (s : String) : List String :=
  (splitRunsAux p s.data false []).map fun l => (⟨l⟩ : String)

/-- JS `text.split(/\s+/)` (note: keeps empty first/last tokens,
so `"".split(/\s+/)` has one element). -/
def jsSplitWs (s : String) : List String :=
  jsSplitRuns jsWs s

/-- JS `String.prototype.trim` on a character list. -/
def trimL (l : List Char) : List Char :=
  ((l.dropWhile jsWs).reverse.dropWhile jsWs).reverse

/-- JS `s.trim()`. -/
def jsTrim (s : String) : String := ⟨trimL s.data⟩

/-- JS `s.toLowerCase()` (ASCII range; the engine only compares
case-folded ASCII words). -/
def jsToLower (s : String) : String := ⟨s.data.map Char.toLower⟩

/-- Is `pat` a prefix of `l`? -/
def isPrefixL : List Char → List Char → Bool
  | [], _ => true
  | _ :: _, [] => false
  | a :: as, b :: bs => a = b && isPrefixL as bs

/-- Does `l` contain `pat` as a contiguous sublist? -/
def hasSub (pat : List Char) : List Char → Bool
  | [] => isPrefixL pat []
  | c :: rest => isPrefixL pat (c :: rest) || hasSub pat rest

/-- JS `s.includes(pat)`. -/
def includesStr (s pat : String) : Bool := hasSub pat.data s.data

/-- Case-insensitive containment: a literal-alternative regex test such as
`/list|enumerate/i.test(s)` is `alts.any (includesCI s)`. -/
def includesCI (s pat : String) : Bool :=
  includesStr (jsToLower s) (jsToLower pat)

/-- JS `(text.match(/\(/g) || []).length` for a single character. -/
def countChar (c : Char) (s : String) : Nat := s.data.count c

/-- State for the paragraph splitter `text.split(/\n\n+/)`:
scanning normally, having seen a single newline, or inside a
separator run of two-or-more newlines. -/
inductive PMode | norm | nl | sep
deriving DecidableEq

/-- JS `text.split(/\n\n+/)`: a single newline stays inside a segment,
two or more newlines form one separator. -/
def parasAux : List Char → PMode → List Char → List (List Char)
  | [], PMode.norm, acc => [acc.reverse]
  | [], PMode.nl, acc => [('\n' :: acc).reverse]
  | [], PMode.sep, acc => [acc.reverse]
  | c :: rest, PMode.norm, acc =>
    if c = '\n' then parasAux rest PMode.nl acc
    else parasAux rest PMode.norm (c :: acc)
  | c :: rest, PMode.nl, acc =>
    if c = '\n' then acc.reverse :: parasAux rest PMode.sep []
    else parasAux rest PMode.norm (c :: '\n' :: acc)
  | c :: rest, PMode.sep, acc =>
    if c = '\n' then parasAux rest PMode.sep acc
    else parasAux rest PMode.norm (c :: acc)

/-- JS `text.split(/\n\n+/)` (paragraphs, `metrics.ts` lines 88, 181, 262). -/
def paragraphsOf (s : String) : List String :=
  (parasAux s.data PMode.norm []).map fun l => (⟨l⟩ : String)

/-- Number of maximal runs of at least four consecutive newlines:
`(text.match(/\n{4,}/g) || []).length`. The accumulator is the length of
the current newline run. -/
def countNlRunsAux : List Char → Nat → Nat
  | [], run => if 4 ≤ run then 1 else 0
  | c :: rest, run =>
    if c = '\n' then countNlRunsAux rest (run + 1)
    else (if 4 ≤ run then 1 else 0) + countNlRunsAux rest 0

/-- JS `(text.match(/\n{4,}/g) || []).length`. -/
def countNlRuns (s : String) : Nat := countNlRunsAux s.data 0

/-- The JS class `[-•*\d]` used by the list-item pattern. -/
def isBulletChar (c : Char) : Bool :=
  c = '-' || c = '•' || c = '*' || ('0' ≤ c && c ≤ '9')

/-- Try to match the tail of `/\n[\s]*[-•*\d]+\.?[\s]/` after the literal
newline: greedy whitespace, then one-or-more bullet characters, an
optional dot, then one whitespace character. Returns the remainder after
the match (the regex engine resumes at `lastIndex`), or `none`.
The character classes `\s` and `[-•*\d]` are disjoint, so the greedy
match needs no backtracking except over the optional dot. -/
def listMatchTail (l : List Char) : Option (List Char) :=
  let l1 := l.dropWhile jsWs
  let bullets := l1.takeWhile isBulletChar
  if bullets.isEmpty then none
  else
    match l1.dropWhile isBulletChar with
    | '.' :: c :: r => if jsWs c then some r else none
    | '.' :: [] => none
    | c :: r => if jsWs c then some r else none
    | [] => none

/-- Global scan counting matches of `/\n[\s]*[-•*\d]+\.?[\s]/g`.
Fuel-indexed structural recursion: every step consumes at least one
character, so fuel equal to the list length is always sufficient. -/
def countListAux : Nat → List Char → Nat
  | 0, _ => 0
  | _ + 1, [] => 0
  | fuel + 1, c :: rest =>
    if c = '\n' then
      match listMatchTail rest with
      | some rem => 1 + countListAux fuel rem
      | none => countListAux fuel rest
    else countListAux fuel rest

/-- JS `(text.match(/\n[\s]*[-•*\d]+\.?[\s]/g) || []).length`. -/
def countListMatches (s : String) : Nat := countListAux s.data.length s.data

/-- The backtick character (code-span delimiter). -/
def tick : Char := Char.ofNat 96

/-- Does `l` contain three consecutive backticks? -/
def hasTripleTick : List Char → Bool
  | [] => false
  | [_] => false
  | [_, _] => false
  | a :: b :: c :: rest =>
    (a = tick && b = tick && c = tick) || hasTripleTick (b :: c :: rest)

/-- Fenced-code alternative: two occurrences of three backticks, the
second starting at least three characters after the first
(the regex half of the alternation in the source). -/
def hasFencedAux : List Char → Bool
  | [] => false
  | [_] => false
  | [_, _] => false
  | a :: b :: c :: rest =>
    if a = tick && b = tick && c = tick then hasTripleTick rest
    else hasFencedAux (b :: c :: rest)

/-- Inline-code alternative: a backtick, one or more non-backticks, then
a backtick. -/
def hasInlineCode : List Char → Bool
  | [] => false
  | c :: rest =>
    (c = tick && !(rest.takeWhile (fun d => d ≠ tick)).isEmpty &&
      (match rest.dropWhile (fun d => d ≠ tick) with
       | d :: _ => d = tick
       | [] => false)) ||
    hasInlineCode rest

/-- Line 274: whether the text contains a fenced or inline code span. -/
def hasCode (s : String) : Bool :=
  hasFencedAux s.data || hasInlineCode s.data

/-- Split at every character satisfying `p` (no run collapsing), the
semantics of JS `split` on a single-character class. -/
def splitEvery (p : Char → Bool) : List Char → List Char → List (List Char)
  | [], acc => [acc.reverse]
  | c :: rest, acc =>
    if p c then acc.reverse :: splitEvery p rest []
    else splitEvery p rest (c :: acc)

/-- Lines for the multiline (`/m`) anchors `^`/`$`: maximal spans free of
line terminators (`\n` and `\r`). -/
def linesOf (s : String) : List String :=
  (splitEvery (fun c => c = '\n' || c = '\r') s.data []).map fun l => (⟨l⟩ : String)

/-- A markdown header line, `/^#{1,6}\s+.+$/m` restricted to one line:
one to six leading hashes, a whitespace character, then at least one more
character. -/
def hashHeaderLine (l : List Char) : Bool :=
  let hs := l.takeWhile (fun c => c = '#')
  1 ≤ hs.length && hs.length ≤ 6 &&
    (match l.drop hs.length with
     | c :: rest => jsWs c && !rest.isEmpty
     | [] => false)

/-- A section-label line, `/^[A-Z][^.!?]+:$/m` restricted to one line:
an ASCII capital, at least one character none of which is a sentence
terminator, ending in a colon. -/
def labelLine (l : List Char) : Bool :=
  match l with
  | c :: rest =>
    ('A' ≤ c && c ≤ 'Z') && !rest.dropLast.isEmpty &&
      rest.getLast? = some ':' && rest.dropLast.all (fun d => !isTerm d)
  | [] => false

/-- Line 279: header-or-section test. -/
def hasHeader (s : String) : Bool :=
  (linesOf s).any fun L => hashHeaderLine L.data || labelLine L.data

/-- Counts matches of `/\.\s+/g` (used via `response.split(/\.\s+/)`,
whose length is this count plus one). The flag records being inside the
whitespace run of a match already counted. -/
def countDotWsAux : List Char → Bool → Nat
  | [], _ => 0
  | c :: rest, inRun =>
    if inRun && jsWs c then countDotWsAux rest true
    else if c = '.' then
      match rest with
      | d :: _ => if jsWs d then 1 + countDotWsAux rest true else countDotWsAux rest false
      | [] => 0
    else countDotWsAux rest false

/-- Length of JS `s.split(/\.\s+/)`. -/
def splitDotWsLen (s : String) : Nat := countDotWsAux s.data false + 1

/-- `splitIntoSentences` (lines 348-353): split on runs of `[.!?]`, trim
each segment, drop empties. -/
def splitIntoSentences (text : String) : List String :=
  ((jsSplitRuns isTerm text).map jsTrim).filter fun s => decide (0 < s.length)

/-- `countSyllables`, vowel-group counter (lines 368-374): number of
transitions into a vowel, scanning left to right. -/
def vowelGroupsAux : List Char → Bool → Nat
  | [], _ => 0
  | c :: rest, prevVowel =>
    let isV := c = 'a' || c = 'e' || c = 'i' || c = 'o' || c = 'u' || c = 'y'
    (if isV && !prevVowel then 1 else 0) + vowelGroupsAux rest isV

/-- `countSyllables` (lines 360-382): lower-case, strip non-letters,
count vowel groups, silent-e adjustment, floor at 1. -/
def countSyllables (word : String) : Nat :=
  let w := (jsToLower word).data.filter fun c => 'a' ≤ c && c ≤ 'z'
  if w.isEmpty then 0
  else
    let count := vowelGroupsAux w false
    let adjusted : Int := if w.getLast? = some 'e' then (count : Int) - 1 else (count : Int)
    (imax 1 adjusted).toNat

/-- `countTotalSyllables` (lines 355-358): lower-case, split on
whitespace, sum per-word syllables (empty tokens contribute 0). -/
def countTotalSyllables (text : String) : Nat :=
  ((jsSplitWs (jsToLower text)).map countSyllables).sum

/-- Modelled from the spec: `clamp` from `@/lib/utils` (the file is not
under `src/`); "each a real number clamped to [0, 100]". -/
def clamp (x lo hi : ℚ) : ℚ := qmin (qmax x lo) hi

/-- Modelled from the spec: `average` from `@/lib/utils` (the file is not
under `src/`); "the unweighted mean of the five scores". -/
def average (xs : List ℚ) : ℚ := xs.sum / (xs.length : ℚ)

/-- JS `Math.round` (round half toward positive infinity). -/
def jsRound (x : ℚ) : ℤ := ⌊x + 1 / 2⌋

/-- The fixed transition-word list of `calculateCoherence` (lines 49-54). -/
def transitionWords : List String :=
  ["however", "therefore", "furthermore", "moreover", "additionally",
   "consequently", "nevertheless", "meanwhile", "similarly", "likewise",
   "thus", "hence", "accordingly", "besides", "also", "then", "next",
   "finally", "first", "second", "third", "lastly", "indeed", "certainly"]

/-- One iteration of the sentence-pair loop of `calculateCoherence`
(lines 57-82); `current`/`next` are the already lower-cased sentences. -/
def coherencePair (current next : String) : ℚ :=
  let currentWords := ((jsSplitWs current).filter fun w => 3 < w.length).dedup
  let nextWords := ((jsSplitWs next).filter fun w => 3 < w.length).dedup
  let overlapCount := (currentWords.filter fun w => nextWords.contains w).length
  let overlapFrac : ℚ := (overlapCount : ℚ) / ((nmax currentWords.length 1 : ℕ) : ℚ)
  let hasTransition := transitionWords.any fun w => includesStr next w
  let pairScore := overlapFrac * 70 + (if hasTransition then 30 else 0)
  clamp pairScore 0 100

/-- `calculateCoherence` (lines 42-92). -/
def calculateCoherence (text : String) : ℚ :=
  let sentences := splitIntoSentences text
  if sentences.length = 0 then 0
  else if sentences.length = 1 then 85
  else
    let totalScore :=
      ((sentences.zip sentences.tail).map fun pr =>
        coherencePair (jsToLower pr.1) (jsToLower pr.2)).sum
    let coherenceScore := totalScore / ((sentences.length : ℚ) - 1)
    let structureBonus : ℚ := ((nmin ((paragraphsOf text).length * 2) 10 : ℕ) : ℚ)
    clamp (coherenceScore + structureBonus) 0 100

/-- The fixed stop-word set of `isCommonWord` (lines 384-392). -/
def commonWords : List String :=
  ["the", "be", "to", "of", "and", "a", "in", "that", "have", "i",
   "it", "for", "not", "on", "with", "he", "as", "you", "do", "at",
   "this", "but", "his", "by", "from", "they", "we", "say", "her", "she",
   "or", "an", "will", "my", "one", "all", "would", "there", "their", "what"]

/-- `isCommonWord` (lines 384-392). -/
def isCommonWord (w : String) : Bool := commonWords.contains (jsToLower w)

/-- The key-term extraction of `calculateCompleteness` (lines 105-112):
lower-cased whitespace tokens longer than three characters that are not
stop words. -/
def promptKeyTerms (prompt : String) : List String :=
  ((jsSplitWs (jsToLower prompt)).filter fun w => 3 < w.length).filter
    fun w => !isCommonWord w

/-- Line 131: `/for example|such as|e\.g\.|i\.e\.|specifically|instance/i`. -/
def exemplCue (response : String) : Bool :=
  ["for example", "such as", "e.g.", "i.e.", "specifically", "instance"].any
    fun pat => includesCI response pat

/-- Line 137: a list-item pattern match or an ordinal word. -/
def listOrOrdinalCue (response : String) : Bool :=
  1 ≤ countListMatches response ||
    ["first", "second", "third", "finally"].any fun pat => includesCI response pat

/-- Line 142: length over 200 and at least three `/\.\s+/`-split segments. -/
def detailCue (response : String) : Bool :=
  200 < response.length && 3 ≤ splitDotWsLen response

/-- `calculateCompleteness` (lines 104-147). -/
def calculateCompleteness (prompt response : String) : ℚ :=
  let promptWords := promptKeyTerms prompt
  let responseLower := jsToLower response
  if promptWords.length = 0 then 75
  else
    let addressedTerms := (promptWords.filter fun w => includesStr responseLower w).length
    let termCoverage := ((addressedTerms : ℚ) / (promptWords.length : ℚ)) * 60
    let patternScore : ℚ :=
      (if exemplCue response then 15 else 0) +
      (if listOrOrdinalCue response then 15 else 0) +
      (if detailCue response then 10 else 0)
    clamp (termCoverage + patternScore) 0 100

/-- Line 161: whitespace tokens of nonzero length. -/
def wordsOf (text : String) : List String :=
  (jsSplitWs text).filter fun w => 0 < w.length

/-- The clamped Flesch Reading Ease component of `calculateReadability`
(lines 166-174). -/
def fleschClampedOf (text : String) : ℚ :=
  let sentences := splitIntoSentences text
  let words := wordsOf text
  let syllables := countTotalSyllables text
  clamp (206.835 - 1.015 * ((words.length : ℚ) / (sentences.length : ℚ))
    - 84.6 * ((syllables : ℚ) / (words.length : ℚ))) 0 100

/-- Fraction of sentences with more than forty whitespace tokens
(lines 177-178; the penalty is this fraction times 20). -/
def longFracOf (text : String) : ℚ :=
  let sentences := splitIntoSentences text
  (((sentences.filter fun s => 40 < (jsSplitWs s).length).length : ℚ) /
    (sentences.length : ℚ))

/-- The paragraph bonus of `calculateReadability` (lines 181-182). -/
def paraBonusOf (text : String) : ℚ :=
  if 1 < (paragraphsOf text).length then 5 else 0

/-- `calculateReadability` (lines 159-185). -/
def calculateReadability (text : String) : ℚ :=
  if (wordsOf text).length = 0 ∨ (splitIntoSentences text).length = 0 then 0
  else clamp (fleschClampedOf text - longFracOf text * 20 + paraBonusOf text) 0 100

/-- Line 217: `/list|enumerate|steps|how to/i.test(prompt)`. -/
def listPat (prompt : String) : Bool :=
  ["list", "enumerate", "steps", "how to"].any fun pat => includesCI prompt pat

/-- Line 222: `/explain|describe|discuss|analyze/i.test(prompt)`. -/
def explainPat (prompt : String) : Bool :=
  ["explain", "describe", "discuss", "analyze"].any fun pat => includesCI prompt pat

/-- Line 227: `/yes|no|true|false|choose|select/i.test(prompt)`. -/
def ynPat (prompt : String) : Bool :=
  ["yes", "no", "true", "false", "choose", "select"].any fun pat => includesCI prompt pat

/-- The expected `[min,max]` word-count band of
`calculateLengthAppropriateness` (lines 200-230): base range from the
prompt word count, then three sequential pattern overrides, later
assignments winning. -/
def expectedRange (prompt : String) : Nat × Nat :=
  let promptWords := (jsSplitWs prompt).length
  let base : Nat × Nat :=
    if promptWords < 10 then (30, 200)
    else if promptWords < 30 then (50, 400)
    else (100, 800)
  let r1 := if listPat prompt then (50, 600) else base
  let r2 := if explainPat prompt then (80, 500) else r1
  if ynPat prompt then (20, 150) else r2

/-- `calculateLengthAppropriateness` (lines 196-246). -/
def calculateLengthAppropriateness (prompt response : String) : ℚ :=
  let responseWords := (jsSplitWs response).length
  let expectedMin := (expectedRange prompt).1
  let expectedMax := (expectedRange prompt).2
  let score : ℚ :=
    if responseWords < expectedMin then
      qmax 0 (100 - (((expectedMin : ℚ) - (responseWords : ℚ)) / (expectedMin : ℚ)) * 80)
    else if expectedMax < responseWords then
      qmax 0 (100 - (((responseWords : ℚ) - (expectedMax : ℚ)) / (expectedMax : ℚ)) * 50)
    else 100
  clamp score 0 100

/-- Paragraph bonus of `calculateStructuralQuality` (lines 262-265). -/
def paraBonusSQ (text : String) : ℚ :=
  let ps := (paragraphsOf text).length
  if 1 < ps then ((nmin (ps * 3) 15 : ℕ) : ℚ) else 0

/-- List-formatting bonus (lines 268-271). -/
def listBonusSQ (text : String) : ℚ :=
  if 2 ≤ countListMatches text then 10 else 0

/-- Code-block bonus (lines 274-276). -/
def codeBonusSQ (text : String) : ℚ :=
  if hasCode text then 5 else 0

/-- Header/section bonus (lines 279-281). -/
def headerBonusSQ (text : String) : ℚ :=
  if hasHeader text then 5 else 0

/-- `/[.!?]$/.test(s.trim())`: the trimmed string is nonempty and its
last character is a sentence terminator (the argument is already a
trimmed sentence, so no trailing newline is possible). -/
def endsTerm (s : String) : Bool :=
  match (jsTrim s).data.getLast? with
  | some c => isTerm c
  | none => false

/-- The properly-terminated sentence count of lines 285-287, evaluated on
the post-split sentences as the source does. -/
def properlyEndedCount (text : String) : Nat :=
  ((splitIntoSentences text).filter endsTerm).length

/-- Punctuation-consistency term (lines 284-292). -/
def punctuationSQ (text : String) : ℚ :=
  let n := (splitIntoSentences text).length
  if 0 < n then ((properlyEndedCount text : ℚ) / (n : ℚ)) * 10 else 0

/-- Excessive-line-break penalty (lines 295-296). -/
def breaksPenaltySQ (text : String) : ℚ := (countNlRuns text : ℚ) * 5

/-- Lines 299-301: equal counts of opening and closing parentheses. -/
def parenBalanced (text : String) : Bool :=
  countChar '(' text = countChar ')' text

/-- Balanced-parentheses bonus (lines 301-303). -/
def parenBonusSQ (text : String) : ℚ :=
  if parenBalanced text then 5 else 0

/-- The unclamped structural-quality score: base 60 plus the adjustments
of lines 262-303 in source order. -/
def structuralPre (text : String) : ℚ :=
  60 + paraBonusSQ text + listBonusSQ text + codeBonusSQ text +
    headerBonusSQ text + punctuationSQ text - breaksPenaltySQ text +
    parenBonusSQ text

/-- `calculateStructuralQuality` (lines 258-306). -/
def calculateStructuralQuality (text : String) : ℚ :=
  clamp (structuralPre text) 0 100

/-- The `QualityMetrics` record (`types`); fields hold the rounded
integer scores. -/
structure QualityMetrics where
  coherence : ℤ
  completeness : ℤ
  readability : ℤ
  lengthAppropriatenss : ℤ
  structuralQuality : ℤ
  overall : ℤ
deriving DecidableEq, Repr

/-- `calculateMetrics` (lines 7-30): run the five analyzers, average the
unrounded scores, round everything for the returned record. -/
def calculateMetrics (prompt response : String) : QualityMetrics :=
  let coherence := calculateCoherence response
  let completeness := calculateCompleteness prompt response
  let readability := calculateReadability response
  let lengthAppropriatenss := calculateLengthAppropriateness prompt response
  let structuralQuality := calculateStructuralQuality response
  let overall := average [coherence, completeness, readability,
    lengthAppropriatenss, structuralQuality]
  { coherence := jsRound coherence
    completeness := jsRound completeness
    readability := jsRound readability
    lengthAppropriatenss := jsRound lengthAppropriatenss
    structuralQuality := jsRound structuralQuality
    overall := jsRound overall }

/-- A balanced-parenthesis text whose structural score is already clamped
at 0: sixteen runs of four newlines give an excessive-break penalty of 80,
against base 60 plus paragraph bonus 15 plus parenthesis bonus 5. -/
def unbalancedCexText : String :=
  String.join (List.replicate 16 "a\n\n\n\n") ++ "a"

/-! ### Basic bounds -/

lemma le_qmax_right (a b : ℚ) : b ≤ qmax a b := by
  unfold qmax
  split_ifs with h <;> [exact le_rfl; exact (not_le.mp h).le]

lemma qmin_le_right (a b : ℚ) : qmin a b ≤ b := by
  unfold qmin
  split_ifs with h <;> [exact h; exact le_rfl]

lemma le_qmin {a b c : ℚ} (h1 : c ≤ a) (h2 : c ≤ b) : c ≤ qmin a b := by
  unfold qmin
  split_ifs <;> assumption

lemma qmax_mono_left {x y : ℚ} (c : ℚ) (h : x ≤ y) : qmax x c ≤ qmax y c := by
  unfold qmax
  split_ifs with h1 h2 <;> push_neg at * <;> linarith

lemma qmin_mono_left {x y : ℚ} (c : ℚ) (h : x ≤ y) : qmin x c ≤ qmin y c := by
  unfold qmin
  split_ifs with h1 h2 <;> push_neg at * <;> linarith

lemma clamp_nonneg (x : ℚ) : 0 ≤ clamp x 0 100 :=
  le_qmin (le_qmax_right x 0) (by norm_num)

lemma clamp_le_hi (x : ℚ) : clamp x 0 100 ≤ 100 :=
  qmin_le_right _ _

lemma clamp_eq_of (x : ℚ) (h0 : 0 ≤ x) (h1 : x ≤ 100) : clamp x 0 100 = x := by
  unfold clamp qmin qmax
  split_ifs <;> linarith

lemma clamp_mono {x y : ℚ} (h : x ≤ y) : clamp x 0 100 ≤ clamp y 0 100 :=
  qmin_mono_left 100 (qmax_mono_left 0 h)

lemma calculateCoherence_mem (t : String) :
    0 ≤ calculateCoherence t ∧ calculateCoherence t ≤ 100 := by
  simp only [calculateCoherence]
  split_ifs <;> first
    | exact ⟨clamp_nonneg _, clamp_le_hi _⟩
    | norm_num

lemma calculateCompleteness_mem (p r : String) :
    0 ≤ calculateCompleteness p r ∧ calculateCompleteness p r ≤ 100 := by
  simp only [calculateCompleteness]
  split_ifs <;> first
    | exact ⟨clamp_nonneg _, clamp_le_hi _⟩
    | norm_num

lemma calculateReadability_mem (t : String) :
    0 ≤ calculateReadability t ∧ calculateReadability t ≤ 100 := by
  simp only [calculateReadability]
  split_ifs <;> first
    | exact ⟨clamp_nonneg _, clamp_le_hi _⟩
    | norm_num

lemma calculateLengthAppropriateness_mem (p r : String) :
    0 ≤ calculateLengthAppropriateness p r ∧ calculateLengthAppropriateness p r ≤ 100 :=
  ⟨clamp_nonneg _, clamp_le_hi _⟩

lemma calculateStructuralQuality_mem (t : String) :
    0 ≤ calculateStructuralQuality t ∧ calculateStructuralQuality t ≤ 100 :=
  ⟨clamp_nonneg _, clamp_le_hi _⟩

lemma average_five (a b c d e : ℚ) :
    average [a, b, c, d, e] = (a + b + c + d + e) / 5 := by
  simp [average]
  ring_nf

lemma jsRound_mem {x : ℚ} (h0 : 0 ≤ x) (h1 : x ≤ 100) :
    0 ≤ jsRound x ∧ jsRound x ≤ 100 := by
  unfold jsRound
  constructor
  · exact Int.le_floor.mpr (by push_cast; linarith)
  · have h : ⌊x + 1 / 2⌋ < 101 := Int.floor_lt.mpr (by push_cast; linarith)
    omega

/-! ### Claim theorems -/

/-- Claim C1: for every prompt and response, each of the five metric
fields returned by `calculateMetrics` and the derived `overall` field
lies in `[0, 100]`. -/
theorem metrics_fields_in_range (p r : String) :
    (0 ≤ (calculateMetrics p r).coherence ∧ (calculateMetrics p r).coherence ≤ 100) ∧
    (0 ≤ (calculateMetrics p r).completeness ∧ (calculateMetrics p r).completeness ≤ 100) ∧
    (0 ≤ (calculateMetrics p r).readability ∧ (calculateMetrics p r).readability ≤ 100) ∧
    (0 ≤ (calculateMetrics p r).lengthAppropriatenss ∧
      (calculateMetrics p r).lengthAppropriatenss ≤ 100) ∧
    (0 ≤ (calculateMetrics p r).structuralQuality ∧
      (calculateMetrics p r).structuralQuality ≤ 100) ∧
    (0 ≤ (calculateMetrics p r).overall ∧ (calculateMetrics p r).overall ≤ 100) := by
  obtain ⟨hc0, hc1⟩ := calculateCoherence_mem r
  obtain ⟨hp0, hp1⟩ := calculateCompleteness_mem p r
  obtain ⟨hr0, hr1⟩ := calculateReadability_mem r
  obtain ⟨hl0, hl1⟩ := calculateLengthAppropriateness_mem p r
  obtain ⟨hs0, hs1⟩ := calculateStructuralQuality_mem r
  have havg : 0 ≤ average [calculateCoherence r, calculateCompleteness p r,
      calculateReadability r, calculateLengthAppropriateness p r,
      calculateStructuralQuality r] ∧
      average [calculateCoherence r, calculateCompleteness p r,
        calculateReadability r, calculateLengthAppropriateness p r,
        calculateStructuralQuality r] ≤ 100 := by
    rw [average_five]
    constructor
    · positivity
    · rw [div_le_iff₀ (by norm_num : (0:ℚ) < 5)]
      linarith
  unfold calculateMetrics
  exact ⟨jsRound_mem hc0 hc1, jsRound_mem hp0 hp1, jsRound_mem hr0 hr1,
    jsRound_mem hl0 hl1, jsRound_mem hs0 hs1, jsRound_mem havg.1 havg.2⟩

/-- Claim C2: the `overall` field of `calculateMetrics` is the rounding
of the arithmetic mean of the five unrounded analyzer scores (not of the
rounded per-metric fields). -/
theorem overall_eq_round_mean_unrounded (p r : String) :
    (calculateMetrics p r).overall =
      jsRound ((calculateCoherence r + calculateCompleteness p r +
        calculateReadability r + calculateLengthAppropriateness p r +
        calculateStructuralQuality r) / 5) := by
  simp only [calculateMetrics]
  rw [average_five]

/-- Claim C5: `calculateCoherence` returns 0 for a text splitting into
zero sentences and exactly 85 for a text splitting into one sentence. -/
theorem coherence_zero_and_single_sentence (text : String) :
    ((splitIntoSentences text).length = 0 → calculateCoherence text = 0) ∧
    ((splitIntoSentences text).length = 1 → calculateCoherence text = 85) := by
  constructor <;> intro h <;> unfold calculateCoherence <;> simp [h]

/-- Witness for C5 at the concrete texts `""` and `"Hi."`. -/
theorem coherence_zero_and_single_sentence_witness :
    (splitIntoSentences "").length = 0 ∧ calculateCoherence "" = 0 ∧
    (splitIntoSentences "Hi.").length = 1 ∧ calculateCoherence "Hi." = 85 :=
  ⟨by decide, (coherence_zero_and_single_sentence "").1 (by decide),
   by decide, (coherence_zero_and_single_sentence "Hi.").2 (by decide)⟩

/-- Claim C6: when the prompt has no lower-cased whitespace token longer
than three characters outside the stop-word set, `calculateCompleteness`
returns exactly 75 for every response. -/
theorem completeness_default_75 (p r : String) (h : promptKeyTerms p = []) :
    calculateCompleteness p r = 75 := by
  unfold calculateCompleteness
  simp [h]

/-- Witness for C6 at the concrete prompt `"is it that"`. -/
theorem completeness_default_75_witness :
    promptKeyTerms "is it that" = [] ∧
    calculateCompleteness "is it that" "whatever response" = 75 :=
  ⟨by decide, completeness_default_75 "is it that" "whatever response" (by decide)⟩

/-- Claim C10: `calculateStructuralQuality ""` is exactly 65: base 60
plus the balanced-parentheses bonus 5, every other adjustment zero. -/
theorem structural_empty_65 :
    calculateStructuralQuality "" = 65 ∧ paraBonusSQ "" = 0 ∧
    listBonusSQ "" = 0 ∧ codeBonusSQ "" = 0 ∧ headerBonusSQ "" = 0 ∧
    punctuationSQ "" = 0 ∧ breaksPenaltySQ "" = 0 ∧ parenBonusSQ "" = 5 := by
  with_unfolding_all decide

/-! ### The expected length band -/

lemma expectedRange_fst_bounds (p : String) :
    20 ≤ (expectedRange p).1 ∧ (expectedRange p).1 ≤ 100 := by
  simp only [expectedRange]
  split_ifs <;> norm_num

/-- Claim C9: `calculateLengthAppropriateness` splits on whitespace
without discarding empty tokens, so the empty response counts as one
word; its score is therefore strictly greater than 20 for every prompt,
in particular never 0. -/
theorem empty_response_length_score (p : String) :
    (jsSplitWs "").length = 1 ∧
    20 < calculateLengthAppropriateness p "" ∧
    calculateLengthAppropriateness p "" ≠ 0 := by
  obtain ⟨h20, h100⟩ := expectedRange_fst_bounds p
  have hlen : (jsSplitWs "").length = 1 := by decide
  have hcond : (jsSplitWs "").length < (expectedRange p).1 := by omega
  have hq20 : (20 : ℚ) ≤ ((expectedRange p).1 : ℚ) := by exact_mod_cast h20
  have hq100 : ((expectedRange p).1 : ℚ) ≤ 100 := by exact_mod_cast h100
  have hpos : (0 : ℚ) < ((expectedRange p).1 : ℚ) := by linarith
  set m : ℚ := ((expectedRange p).1 : ℚ) with hm
  have hval : calculateLengthAppropriateness p "" =
      clamp (qmax 0 (100 - ((m - ((jsSplitWs "").length : ℚ)) / m) * 80)) 0 100 := by
    simp only [calculateLengthAppropriateness, if_pos hcond]
  rw [hlen] at hval
  have hfrac : ((m - (1:ℕ)) / m) * 80 < 80 := by
    rw [div_mul_eq_mul_div, div_lt_iff₀ hpos]
    push_cast
    linarith
  have hfrac0 : 0 ≤ ((m - (1:ℕ)) / m) * 80 := by
    apply mul_nonneg _ (by norm_num)
    apply div_nonneg _ hpos.le
    push_cast
    linarith
  have hv20 : 20 < 100 - ((m - (1:ℕ)) / m) * 80 := by linarith
  have hv100 : 100 - ((m - (1:ℕ)) / m) * 80 ≤ 100 := by linarith
  have hqm : qmax 0 (100 - ((m - (1:ℕ)) / m) * 80) = 100 - ((m - (1:ℕ)) / m) * 80 := by
    unfold qmax
    split_ifs <;> linarith
  rw [hqm, clamp_eq_of _ (by linarith) hv100] at hval
  refine ⟨hlen, ?_, ?_⟩
  · rw [hval]; exact hv20
  · rw [hval]; intro hcontra; rw [hcontra] at hv20; norm_num at hv20

/-! ### The punctuation term is dead code -/

lemma splitRunsAux_chars (p : Char → Bool) :
    ∀ (l : List Char) (b : Bool) (acc : List Char),
      (∀ c ∈ acc, p c = false) →
      ∀ seg ∈ splitRunsAux p l b acc, ∀ c ∈ seg, p c = false := by
  intro l
  induction l with
  | nil =>
    intro b acc hacc seg hseg c hc
    simp only [splitRunsAux, List.mem_singleton] at hseg
    subst hseg
    exact hacc c (List.mem_reverse.mp hc)
  | cons d rest ih =>
    intro b acc hacc seg hseg c hc
    cases hpd : p d with
    | true =>
      cases b with
      | true =>
        simp only [splitRunsAux, hpd, if_true] at hseg
        exact ih true acc hacc seg hseg c hc
      | false =>
        simp only [splitRunsAux, hpd, if_true, Bool.false_eq_true, if_false,
          List.mem_cons] at hseg
        rcases hseg with rfl | hseg
        · exact hacc c (List.mem_reverse.mp hc)
        · exact ih true [] (by intro x hx; cases hx) seg hseg c hc
    | false =>
      simp only [splitRunsAux, hpd, Bool.false_eq_true, if_false] at hseg
      refine ih false (d :: acc) ?_ seg hseg c hc
      intro x hx
      rcases List.mem_cons.mp hx with rfl | hx
      · exact hpd
      · exact hacc x hx

lemma mem_of_mem_trimL {c : Char} {l : List Char} (h : c ∈ trimL l) : c ∈ l := by
  unfold trimL at h
  rw [List.mem_reverse] at h
  have h1 := (List.dropWhile_sublist jsWs).subset h
  rw [List.mem_reverse] at h1
  exact (List.dropWhile_sublist jsWs).subset h1

lemma splitIntoSentences_chars (text : String) :
    ∀ s ∈ splitIntoSentences text, ∀ c ∈ s.data, isTerm c = false := by
  intro s hs c hc
  unfold splitIntoSentences at hs
  rw [List.mem_filter] at hs
  obtain ⟨hs, -⟩ := hs
  rw [List.mem_map] at hs
  obtain ⟨t, ht, rfl⟩ := hs
  unfold jsSplitRuns at ht
  rw [List.mem_map] at ht
  obtain ⟨seg, hseg, rfl⟩ := ht
  have hc' : c ∈ seg := mem_of_mem_trimL hc
  exact splitRunsAux_chars isTerm text.data false [] (by intro x hx; cases hx) seg hseg c hc'

lemma endsTerm_eq_false {s : String} (h : ∀ c ∈ s.data, isTerm c = false) :
    endsTerm s = false := by
  unfold endsTerm
  cases hl : (jsTrim s).data.getLast? with
  | none => rfl
  | some c =>
    have hc : c ∈ (jsTrim s).data := List.mem_of_mem_getLast? hl
    exact h c (mem_of_mem_trimL hc)

lemma properlyEndedCount_zero (text : String) : properlyEndedCount text = 0 := by
  unfold properlyEndedCount
  rw [List.length_eq_zero, List.filter_eq_nil_iff]
  intro s hs
  simp [endsTerm_eq_false (splitIntoSentences_chars text s hs)]

lemma punctuationSQ_zero (text : String) : punctuationSQ text = 0 := by
  simp only [punctuationSQ]
  split_ifs <;> simp [properlyEndedCount_zero]

/-- Claim C3 (code bug): the source filters the post-split sentences with
`/[.!?]$/`, but those segments never contain a terminator character, so
the properly-terminated count — and with it the punctuation term — is
always zero; in particular `"Hello."` scores 65 instead of the 75 the
claimed pre-split evaluation would give (60 + 10 punctuation + 5
parentheses). -/
theorem punctuation_check_dead :
    (∀ text : String, properlyEndedCount text = 0 ∧ punctuationSQ text = 0) ∧
    calculateStructuralQuality "Hello." = 65 := by
  constructor
  · intro t
    exact ⟨properlyEndedCount_zero t, punctuationSQ_zero t⟩
  · with_unfolding_all decide

/-! ### Structural-quality components -/

lemma le_qmax_left (a b : ℚ) : a ≤ qmax a b := by
  unfold qmax
  split_ifs with h <;> [exact h; exact le_rfl]

lemma qmax_le {a b c : ℚ} (h1 : a ≤ c) (h2 : b ≤ c) : qmax a b ≤ c := by
  unfold qmax
  split_ifs <;> assumption

lemma qmax_mono_right {x y : ℚ} (c : ℚ) (h : x ≤ y) : qmax c x ≤ qmax c y := by
  unfold qmax
  split_ifs <;> push_neg at * <;> linarith

lemma nmin_le_right (a b : ℕ) : nmin a b ≤ b := by
  unfold nmin
  split_ifs <;> omega

lemma paraBonusSQ_mem (t : String) : 0 ≤ paraBonusSQ t ∧ paraBonusSQ t ≤ 15 := by
  simp only [paraBonusSQ]
  split_ifs
  · exact ⟨by positivity, by exact_mod_cast nmin_le_right _ 15⟩
  · norm_num

lemma listBonusSQ_mem (t : String) : 0 ≤ listBonusSQ t ∧ listBonusSQ t ≤ 10 := by
  unfold listBonusSQ
  split_ifs <;> norm_num

lemma codeBonusSQ_mem (t : String) : 0 ≤ codeBonusSQ t ∧ codeBonusSQ t ≤ 5 := by
  unfold codeBonusSQ
  split_ifs <;> norm_num

lemma headerBonusSQ_mem (t : String) : 0 ≤ headerBonusSQ t ∧ headerBonusSQ t ≤ 5 := by
  unfold headerBonusSQ
  split_ifs <;> norm_num

lemma parenBonusSQ_mem (t : String) : 0 ≤ parenBonusSQ t ∧ parenBonusSQ t ≤ 5 := by
  unfold parenBonusSQ
  split_ifs <;> norm_num

lemma breaksPenaltySQ_nonneg (t : String) : 0 ≤ breaksPenaltySQ t := by
  unfold breaksPenaltySQ
  positivity

lemma structuralPre_le_100 (t : String) : structuralPre t ≤ 100 := by
  obtain ⟨p0, p1⟩ := paraBonusSQ_mem t
  obtain ⟨l0, l1⟩ := listBonusSQ_mem t
  obtain ⟨c0, c1⟩ := codeBonusSQ_mem t
  obtain ⟨h0, h1⟩ := headerBonusSQ_mem t
  obtain ⟨q0, q1⟩ := parenBonusSQ_mem t
  have b0 := breaksPenaltySQ_nonneg t
  have pz := punctuationSQ_zero t
  unfold structuralPre
  linarith

set_option maxRecDepth 8000 in
/-- Claim C4 counterexample: on a balanced text whose structural score is
clamped at 0, adding one unmatched opening parenthesis does not lower the
score by exactly 5 — both scores are 0. -/
theorem paren_plus5_counterexample :
    countChar '(' unbalancedCexText = countChar ')' unbalancedCexText ∧
    calculateStructuralQuality (unbalancedCexText ++ "(") ≠
      calculateStructuralQuality unbalancedCexText - 5 := by
  with_unfolding_all decide

/-- Claim C4 (amended): for a balanced-parenthesis text, adding one
unmatched `(` with every other structural component unchanged yields a
score exactly 5 lower, provided the modified text's unclamped score is
still at least 0 (the clamp at 0 can otherwise absorb the difference;
the clamp at 100 never binds because the punctuation term is always 0). -/
theorem paren_unbalanced_amended (t t' : String)
    (hpara : paraBonusSQ t' = paraBonusSQ t)
    (hlist : listBonusSQ t' = listBonusSQ t)
    (hcode : codeBonusSQ t' = codeBonusSQ t)
    (hheader : headerBonusSQ t' = headerBonusSQ t)
    (hbreaks : breaksPenaltySQ t' = breaksPenaltySQ t)
    (hbal : countChar '(' t = countChar ')' t)
    (hopen : countChar '(' t' = countChar '(' t + 1)
    (hclose : countChar ')' t' = countChar ')' t)
    (hfloor : 0 ≤ structuralPre t') :
    calculateStructuralQuality t' = calculateStructuralQuality t - 5 := by
  have hbT : parenBalanced t = true := by
    simp only [parenBalanced, hbal, decide_eq_true_eq]
  have hbF : parenBalanced t' = false := by
    simp only [parenBalanced, hopen, hclose, hbal, decide_eq_false_iff_not]
    omega
  have hparen : parenBonusSQ t = 5 := by simp [parenBonusSQ, hbT]
  have hparen' : parenBonusSQ t' = 0 := by simp [parenBonusSQ, hbF]
  have hpre : structuralPre t' = structuralPre t - 5 := by
    unfold structuralPre
    rw [hpara, hlist, hcode, hheader, hbreaks, hparen, hparen',
      punctuationSQ_zero, punctuationSQ_zero]
    ring
  unfold calculateStructuralQuality
  rw [clamp_eq_of _ hfloor (structuralPre_le_100 t'),
    clamp_eq_of _ (by linarith [hpre, hfloor]) (structuralPre_le_100 t), hpre]

/-- Witness for the amended C4 at `"Hello"` versus `"Hello("`. -/
theorem paren_unbalanced_amended_witness :
    countChar '(' "Hello" = countChar ')' "Hello" ∧
    0 ≤ structuralPre "Hello(" ∧
    calculateStructuralQuality "Hello(" = calculateStructuralQuality "Hello" - 5 :=
  ⟨by decide, by with_unfolding_all decide,
   paren_unbalanced_amended "Hello" "Hello(" (by with_unfolding_all decide)
     (by with_unfolding_all decide) (by with_unfolding_all decide)
     (by with_unfolding_all decide) (by with_unfolding_all decide)
     (by decide) (by decide) (by decide) (by with_unfolding_all decide)⟩

/-! ### Length appropriateness: band characterization -/

lemma expectedRange_pos (p : String) :
    0 < (expectedRange p).1 ∧ 0 < (expectedRange p).2 := by
  simp only [expectedRange]
  split_ifs <;> norm_num

lemma expectedRange_fst_le_snd (p : String) :
    (expectedRange p).1 ≤ (expectedRange p).2 := by
  simp only [expectedRange]
  split_ifs <;> norm_num

lemma lengthScore_below (p r : String)
    (h : (jsSplitWs r).length < (expectedRange p).1) :
    calculateLengthAppropriateness p r =
      qmax 0 (100 - ((((expectedRange p).1 : ℚ) - ((jsSplitWs r).length : ℚ)) /
        ((expectedRange p).1 : ℚ)) * 80) ∧
    calculateLengthAppropriateness p r < 100 := by
  have hpos : (0 : ℚ) < ((expectedRange p).1 : ℚ) := by
    exact_mod_cast (expectedRange_pos p).1
  have hwc : ((jsSplitWs r).length : ℚ) < ((expectedRange p).1 : ℚ) := by exact_mod_cast h
  have hsub : 0 < (((expectedRange p).1 : ℚ) - ((jsSplitWs r).length : ℚ)) /
      ((expectedRange p).1 : ℚ) * 80 :=
    mul_pos (div_pos (by linarith) hpos) (by norm_num)
  have hval : calculateLengthAppropriateness p r =
      qmax 0 (100 - ((((expectedRange p).1 : ℚ) - ((jsSplitWs r).length : ℚ)) /
        ((expectedRange p).1 : ℚ)) * 80) := by
    simp only [calculateLengthAppropriateness, if_pos h]
    exact clamp_eq_of _ (le_qmax_left _ _) (qmax_le (by norm_num) (by linarith))
  refine ⟨hval, ?_⟩
  rw [hval]
  unfold qmax
  split_ifs <;> linarith

lemma lengthScore_above (p r : String)
    (h : (expectedRange p).2 < (jsSplitWs r).length) :
    calculateLengthAppropriateness p r =
      qmax 0 (100 - ((((jsSplitWs r).length : ℚ) - ((expectedRange p).2 : ℚ)) /
        ((expectedRange p).2 : ℚ)) * 50) ∧
    calculateLengthAppropriateness p r < 100 := by
  have hpos : (0 : ℚ) < ((expectedRange p).2 : ℚ) := by
    exact_mod_cast (expectedRange_pos p).2
  have hwc : ((expectedRange p).2 : ℚ) < ((jsSplitWs r).length : ℚ) := by exact_mod_cast h
  have hsub : 0 < (((jsSplitWs r).length : ℚ) - ((expectedRange p).2 : ℚ)) /
      ((expectedRange p).2 : ℚ) * 50 :=
    mul_pos (div_pos (by linarith) hpos) (by norm_num)
  have hnotlt : ¬ (jsSplitWs r).length < (expectedRange p).1 := by
    have := expectedRange_fst_le_snd p
    omega
  have hval : calculateLengthAppropriateness p r =
      qmax 0 (100 - ((((jsSplitWs r).length : ℚ) - ((expectedRange p).2 : ℚ)) /
        ((expectedRange p).2 : ℚ)) * 50) := by
    simp only [calculateLengthAppropriateness, if_neg hnotlt, if_pos h]
    exact clamp_eq_of _ (le_qmax_left _ _) (qmax_le (by norm_num) (by linarith))
  refine ⟨hval, ?_⟩
  rw [hval]
  unfold qmax
  split_ifs <;> linarith

lemma qmax_zero_lt {a b : ℚ} (hab : a < b) (hb : 0 < qmax 0 b) :
    qmax 0 a < qmax 0 b := by
  unfold qmax at *
  split_ifs at * <;> linarith

lemma lengthScore_in (p r : String)
    (h1 : (expectedRange p).1 ≤ (jsSplitWs r).length)
    (h2 : (jsSplitWs r).length ≤ (expectedRange p).2) :
    calculateLengthAppropriateness p r = 100 := by
  simp only [calculateLengthAppropriateness, if_neg (Nat.not_lt.mpr h1),
    if_neg (Nat.not_lt.mpr h2)]
  exact clamp_eq_of 100 (by norm_num) le_rfl

/-- Claim C7: the length-appropriateness score is exactly 100 iff the
response word count lies inside the expected band computed from the
prompt (base range plus sequential overrides); outside the band the score
is non-increasing as the distance from the band grows, floored at 0. -/
theorem length_band_iff_and_monotone (prompt response r1 r2 r3 r4 : String) :
    (calculateLengthAppropriateness prompt response = 100 ↔
      (expectedRange prompt).1 ≤ (jsSplitWs response).length ∧
      (jsSplitWs response).length ≤ (expectedRange prompt).2) ∧
    ((jsSplitWs r1).length < (expectedRange prompt).1 →
      (jsSplitWs r2).length ≤ (jsSplitWs r1).length →
      calculateLengthAppropriateness prompt r2 ≤
        calculateLengthAppropriateness prompt r1) ∧
    ((expectedRange prompt).2 < (jsSplitWs r3).length →
      (jsSplitWs r3).length ≤ (jsSplitWs r4).length →
      calculateLengthAppropriateness prompt r4 ≤
        calculateLengthAppropriateness prompt r3) ∧
    ((jsSplitWs r1).length < (expectedRange prompt).1 →
      (jsSplitWs r2).length < (jsSplitWs r1).length →
      0 < calculateLengthAppropriateness prompt r1 →
      calculateLengthAppropriateness prompt r2 <
        calculateLengthAppropriateness prompt r1) ∧
    ((expectedRange prompt).2 < (jsSplitWs r3).length →
      (jsSplitWs r3).length < (jsSplitWs r4).length →
      0 < calculateLengthAppropriateness prompt r3 →
      calculateLengthAppropriateness prompt r4 <
        calculateLengthAppropriateness prompt r3) := by
  have hpos1 : (0 : ℚ) < ((expectedRange prompt).1 : ℚ) := by
    exact_mod_cast (expectedRange_pos prompt).1
  have hpos2 : (0 : ℚ) < ((expectedRange prompt).2 : ℚ) := by
    exact_mod_cast (expectedRange_pos prompt).2
  refine ⟨⟨?_, fun h => lengthScore_in prompt response h.1 h.2⟩, ?_, ?_, ?_, ?_⟩
  · intro h100
    rcases Nat.lt_or_ge ((jsSplitWs response).length) ((expectedRange prompt).1) with h | h
    · exact absurd h100 (ne_of_lt (lengthScore_below prompt response h).2)
    · rcases Nat.lt_or_ge ((expectedRange prompt).2) ((jsSplitWs response).length) with h2 | h2
      · exact absurd h100 (ne_of_lt (lengthScore_above prompt response h2).2)
      · exact ⟨h, h2⟩
  · intro h1 h2
    have h2' : (jsSplitWs r2).length < (expectedRange prompt).1 := lt_of_le_of_lt h2 h1
    rw [(lengthScore_below prompt r1 h1).1, (lengthScore_below prompt r2 h2').1]
    apply qmax_mono_right
    have hle : ((jsSplitWs r2).length : ℚ) ≤ ((jsSplitWs r1).length : ℚ) := by
      exact_mod_cast h2
    have key : (((expectedRange prompt).1 : ℚ) - ((jsSplitWs r1).length : ℚ)) /
        ((expectedRange prompt).1 : ℚ) * 80 ≤
        (((expectedRange prompt).1 : ℚ) - ((jsSplitWs r2).length : ℚ)) /
        ((expectedRange prompt).1 : ℚ) * 80 := by
      have hr : ∀ a : ℚ, a / ((expectedRange prompt).1 : ℚ) * 80 =
          a * (80 / ((expectedRange prompt).1 : ℚ)) := by intro a; ring
      rw [hr, hr]
      exact mul_le_mul_of_nonneg_right (by linarith) (by positivity)
    linarith
  · intro h3 h4
    have h4' : (expectedRange prompt).2 < (jsSplitWs r4).length := lt_of_lt_of_le h3 h4
    rw [(lengthScore_above prompt r3 h3).1, (lengthScore_above prompt r4 h4').1]
    apply qmax_mono_right
    have hle : ((jsSplitWs r3).length : ℚ) ≤ ((jsSplitWs r4).length : ℚ) := by
      exact_mod_cast h4
    have key : (((jsSplitWs r3).length : ℚ) - ((expectedRange prompt).2 : ℚ)) /
        ((expectedRange prompt).2 : ℚ) * 50 ≤
        (((jsSplitWs r4).length : ℚ) - ((expectedRange prompt).2 : ℚ)) /
        ((expectedRange prompt).2 : ℚ) * 50 := by
      have hr : ∀ a : ℚ, a / ((expectedRange prompt).2 : ℚ) * 50 =
          a * (50 / ((expectedRange prompt).2 : ℚ)) := by intro a; ring
      rw [hr, hr]
      exact mul_le_mul_of_nonneg_right (by linarith) (by positivity)
    linarith
  · intro h1 h2 hpos0
    have h2' : (jsSplitWs r2).length < (expectedRange prompt).1 := lt_trans h2 h1
    rw [(lengthScore_below prompt r1 h1).1] at hpos0 ⊢
    rw [(lengthScore_below prompt r2 h2').1]
    apply qmax_zero_lt _ hpos0
    have hlt : ((jsSplitWs r2).length : ℚ) < ((jsSplitWs r1).length : ℚ) := by
      exact_mod_cast h2
    have key : (((expectedRange prompt).1 : ℚ) - ((jsSplitWs r1).length : ℚ)) /
        ((expectedRange prompt).1 : ℚ) * 80 <
        (((expectedRange prompt).1 : ℚ) - ((jsSplitWs r2).length : ℚ)) /
        ((expectedRange prompt).1 : ℚ) * 80 := by
      have hr : ∀ a : ℚ, a / ((expectedRange prompt).1 : ℚ) * 80 =
          a * (80 / ((expectedRange prompt).1 : ℚ)) := by intro a; ring
      rw [hr, hr]
      exact mul_lt_mul_of_pos_right (by linarith) (by positivity)
    linarith
  · intro h3 h4 hpos0
    have h4' : (expectedRange prompt).2 < (jsSplitWs r4).length := lt_trans h3 h4
    rw [(lengthScore_above prompt r3 h3).1] at hpos0 ⊢
    rw [(lengthScore_above prompt r4 h4').1]
    apply qmax_zero_lt _ hpos0
    have hlt : ((jsSplitWs r3).length : ℚ) < ((jsSplitWs r4).length : ℚ) := by
      exact_mod_cast h4
    have key : (((jsSplitWs r3).length : ℚ) - ((expectedRange prompt).2 : ℚ)) /
        ((expectedRange prompt).2 : ℚ) * 50 <
        (((jsSplitWs r4).length : ℚ) - ((expectedRange prompt).2 : ℚ)) /
        ((expectedRange prompt).2 : ℚ) * 50 := by
      have hr : ∀ a : ℚ, a / ((expectedRange prompt).2 : ℚ) * 50 =
          a * (50 / ((expectedRange prompt).2 : ℚ)) := by intro a; ring
      rw [hr, hr]
      exact mul_lt_mul_of_pos_right (by linarith) (by positivity)
    linarith

set_option maxRecDepth 100000 in
/-- Witness for C7 with prompt `"Hi"` (band `[30, 200]`): a 30-word
response scores 100; below the band 1 word scores no more than 2 words;
above the band 202 words score no more than 201 words. -/
theorem length_band_iff_and_monotone_witness :
    calculateLengthAppropriateness "Hi"
      (String.intercalate " " (List.replicate 30 "a")) = 100 ∧
    calculateLengthAppropriateness "Hi" "a" ≤
      calculateLengthAppropriateness "Hi" "a a" ∧
    calculateLengthAppropriateness "Hi"
      (String.intercalate " " (List.replicate 202 "a")) ≤
    calculateLengthAppropriateness "Hi"
      (String.intercalate " " (List.replicate 201 "a")) ∧
    calculateLengthAppropriateness "Hi" "a" <
      calculateLengthAppropriateness "Hi" "a a" ∧
    calculateLengthAppropriateness "Hi"
      (String.intercalate " " (List.replicate 202 "a")) <
    calculateLengthAppropriateness "Hi"
      (String.intercalate " " (List.replicate 201 "a")) :=
  ⟨(length_band_iff_and_monotone "Hi"
      (String.intercalate " " (List.replicate 30 "a")) "a a" "a"
      (String.intercalate " " (List.replicate 201 "a"))
      (String.intercalate " " (List.replicate 202 "a"))).1.mpr
    ⟨by decide, by decide⟩,
   (length_band_iff_and_monotone "Hi"
      (String.intercalate " " (List.replicate 30 "a")) "a a" "a"
      (String.intercalate " " (List.replicate 201 "a"))
      (String.intercalate " " (List.replicate 202 "a"))).2.1
    (by decide) (by decide),
   (length_band_iff_and_monotone "Hi"
      (String.intercalate " " (List.replicate 30 "a")) "a a" "a"
      (String.intercalate " " (List.replicate 201 "a"))
      (String.intercalate " " (List.replicate 202 "a"))).2.2.1
    (by decide) (by decide),
   (length_band_iff_and_monotone "Hi"
      (String.intercalate " " (List.replicate 30 "a")) "a a" "a"
      (String.intercalate " " (List.replicate 201 "a"))
      (String.intercalate " " (List.replicate 202 "a"))).2.2.2.1
    (by decide) (by decide) (by with_unfolding_all decide),
   (length_band_iff_and_monotone "Hi"
      (String.intercalate " " (List.replicate 30 "a")) "a a" "a"
      (String.intercalate " " (List.replicate 201 "a"))
      (String.intercalate " " (List.replicate 202 "a"))).2.2.2.2
    (by decide) (by decide) (by with_unfolding_all decide)⟩

/-! ### Readability -/

/-- Claim C8: readability of empty text is 0, and with the clamped
Flesch component and paragraph bonus held fixed the score is
monotonically non-increasing in the fraction of sentences with more than
forty words. -/
theorem readability_empty_and_long_monotone :
    calculateReadability "" = 0 ∧
    ∀ t1 t2 : String,
      (wordsOf t1).length ≠ 0 → (splitIntoSentences t1).length ≠ 0 →
      (wordsOf t2).length ≠ 0 → (splitIntoSentences t2).length ≠ 0 →
      fleschClampedOf t1 = fleschClampedOf t2 →
      paraBonusOf t1 = paraBonusOf t2 →
      longFracOf t1 ≤ longFracOf t2 →
      calculateReadability t2 ≤ calculateReadability t1 := by
  constructor
  · with_unfolding_all decide
  · intro t1 t2 hw1 hs1 hw2 hs2 hf hp hl
    have e1 : calculateReadability t1 =
        clamp (fleschClampedOf t1 - longFracOf t1 * 20 + paraBonusOf t1) 0 100 := by
      simp only [calculateReadability]
      rw [if_neg]
      push_neg
      exact ⟨hw1, hs1⟩
    have e2 : calculateReadability t2 =
        clamp (fleschClampedOf t2 - longFracOf t2 * 20 + paraBonusOf t2) 0 100 := by
      simp only [calculateReadability]
      rw [if_neg]
      push_neg
      exact ⟨hw2, hs2⟩
    rw [e1, e2, hf, hp]
    exact clamp_mono (by linarith)

set_option maxRecDepth 100000 in
/-- Witness for C8: both texts have clamped Flesch component 0 and no
paragraph bonus; the 41-word single-sentence text has long-sentence
fraction 1 against 0, and its readability is indeed no greater. -/
theorem readability_empty_and_long_monotone_witness :
    fleschClampedOf "abababab." =
      fleschClampedOf (String.intercalate " " (List.replicate 41 "abab") ++ ".") ∧
    longFracOf "abababab." ≤
      longFracOf (String.intercalate " " (List.replicate 41 "abab") ++ ".") ∧
    calculateReadability (String.intercalate " " (List.replicate 41 "abab") ++ ".") ≤
      calculateReadability "abababab." :=
  ⟨by with_unfolding_all decide,
   by with_unfolding_all decide,
   readability_empty_and_long_monotone.2 "abababab."
     (String.intercalate " " (List.replicate 41 "abab") ++ ".")
     (by decide) (by decide) (by decide) (by decide)
     (by with_unfolding_all decide) (by with_unfolding_all decide)
     (by with_unfolding_all decide)⟩

end Metrics
